import Mathlib

/-!
Verification of the Readwise-to-RemNote sync scheduler
(`src/widgets/index.tsx`).

The development shallowly embeds the `syncHighlights` cycle orchestrator,
the `finally`-block re-arm discipline, and the `onActivate` startup
scheduling decision.  A cycle is modelled as a pure function from the
invocation options and an environment (API key, stored cursor, the
outcome the fetch collaborator would produce, whether the import
collaborator throws, and the current wall-clock time) to an ordered
trace of observable events plus the final cursor value and a flag
recording whether an uncaught exception escaped the async function.
Timestamps are integers (milliseconds since the epoch); ISO strings in
storage are represented by the timestamps they denote, which order the
same way.
-/

namespace ReadwiseSync

/-- The options object passed to `syncHighlights`; each field may be
absent (JavaScript `undefined`). -/
structure SyncOptions where
  ignoreLastSync : Option Bool
  notify : Option Bool
deriving DecidableEq

/-- JavaScript truthiness of a possibly-absent boolean field:
`undefined` is falsy. -/
def truthy : Option Bool → Bool
  | some b => b
  | none => false

/-- JavaScript falsiness of the `getSetting<string>` result: the check
`!apiKey` holds when the key is `undefined` or the empty string. -/
def falsyStr : Option String → Bool
  | none => true
  | some s => s = ""

/-- Outcome of the external fetch collaborator
`getReadwiseExportsSince`: a well-formed response with possibly-missing
data, a failure object carrying an error string, or a thrown
exception. -/
inductive FetchResult where
  | success (data : Option (List String))
  | failure (error : String)
  | throwsErr
deriving DecidableEq

/-- Environment of one cycle invocation: what the collaborators would
answer during this cycle. -/
structure Env where
  apiKey : Option String
  storedCursor : Option Int
  fetchResult : FetchResult
  importThrows : Bool
  now : Int
deriving DecidableEq

/-- Observable events of a cycle, in program order. -/
inductive Event where
  | toast (msg : String)
  | getSynced
  | fetchCall (apiKey : String) (since : Option Int)
  | importCall (books : List String)
  | setSynced (t : Int)
  | clearTimeoutCall
  | scheduleCall (delayMs : Int) (opts : Option SyncOptions)
deriving DecidableEq

/-- Result of one cycle: the ordered event trace, the cursor value in
storage afterwards, and whether an uncaught exception escaped. -/
structure CycleResult where
  events : List Event
  cursor : Option Int
  fault : Bool
deriving DecidableEq

/-- The fixed interval: `1000 * 60 * 30` milliseconds. -/
def interval : Int := 1000 * 60 * 30

/-- Message of the missing-credential toast (line 72). -/
def noKeyMsg : String :=
  "No Readwise API key set. Please follow the instructions in the plugin settings."

/-- Message toasted before a non-empty import (line 85). -/
def importingMsg : String := "Importing books and highlights..."

/-- Message toasted after a non-empty import (line 91). -/
def finishedMsg : String := "Finished importing books and highlights."

/-- Message toasted on an empty successful fetch (line 97). -/
def nothingNewMsg : String := "No new books or highlights to import."

/-- Message of the auth-failure toast (line 106). -/
def invalidKeyMsg : String :=
  "Readwise API key is invalid. Please follow the instructions in the plugin settings."

/-- Message of the non-auth failure toast (line 113). -/
def syncFailedWith (e : String) : String :=
  "Failed to sync Readwise highlights: " ++ e

/-- Message of the catch-block toast (line 119). -/
def syncFailedMsg : String := "Failed to sync Readwise highlights."

/-- Events of the `finally` block (lines 120-123):
`clearTimeout(timeout)` followed by
`setTimeout(syncHighlights, 1000 * 60 * 30)`.  The timer callback is
invoked by the runtime with no arguments, hence the scheduled options
are `none`. -/
def rearmEvents : List Event :=
  [Event.clearTimeoutCall, Event.scheduleCall interval none]

/-- Shallow embedding of `syncHighlights` (lines 69-124).  The
credential gate (lines 70-76) and the since-resolution (lines 77-79)
precede the `try` block, so the missing-credential branch returns
without re-arming, and when `opts` is absent (a timer-fired invocation)
the access `opts.ignoreLastSync` throws a `TypeError` outside the
`try`, so the async function rejects with no toast, no fetch and no
re-arm.  Inside the `try`, every path — success (empty or not), auth
failure, other failure, a throw from fetch or from import — falls
through the `finally` block, which clears and schedules a timer. -/
def syncHighlights (opts : Option SyncOptions) (env : Env) : CycleResult :=
  if falsyStr env.apiKey then
    { events := [Event.toast noKeyMsg], cursor := env.storedCursor, fault := false }
  else
    match opts with
    | none => { events := [], cursor := env.storedCursor, fault := true }
    | some o =>
      let key := env.apiKey.getD ""
      let readEvs : List Event :=
        if truthy o.ignoreLastSync then [] else [Event.getSynced]
      let lastSync : Option Int :=
        if truthy o.ignoreLastSync then none else env.storedCursor
      let fetchEv := Event.fetchCall key lastSync
      match env.fetchResult with
      | FetchResult.throwsErr =>
          { events := readEvs ++ [fetchEv, Event.toast syncFailedMsg] ++ rearmEvents,
            cursor := env.storedCursor, fault := false }
      | FetchResult.failure e =>
          if e = "auth" then
            { events := readEvs ++ [fetchEv, Event.toast invalidKeyMsg] ++ rearmEvents,
              cursor := env.storedCursor, fault := false }
          else
            { events := readEvs ++ [fetchEv, Event.toast (syncFailedWith e)] ++ rearmEvents,
              cursor := env.storedCursor, fault := false }
      | FetchResult.success data =>
          match data with
          | some bs =>
              if 0 < bs.length then
                let pre := if truthy o.notify then [Event.toast importingMsg] else []
                if env.importThrows then
                  { events := readEvs ++ [fetchEv] ++ pre ++
                      [Event.importCall bs, Event.toast syncFailedMsg] ++ rearmEvents,
                    cursor := env.storedCursor, fault := false }
                else
                  let post := if truthy o.notify then [Event.toast finishedMsg] else []
                  { events := readEvs ++ [fetchEv] ++ pre ++ [Event.importCall bs] ++ post ++
                      [Event.setSynced env.now] ++ rearmEvents,
                    cursor := some env.now, fault := false }
              else
                { events := readEvs ++ [fetchEv] ++
                    (if truthy o.notify then [Event.toast nothingNewMsg] else []) ++
                    [Event.setSynced env.now] ++ rearmEvents,
                  cursor := some env.now, fault := false }
          | none =>
              { events := readEvs ++ [fetchEv] ++
                  (if truthy o.notify then [Event.toast nothingNewMsg] else []) ++
                  [Event.setSynced env.now] ++ rearmEvents,
                cursor := some env.now, fault := false }

/-- True when the trace contains a `setTimeout` scheduling event. -/
def schedules (es : List Event) : Bool :=
  es.any fun e => match e with
    | Event.scheduleCall _ _ => true
    | _ => false

/-- True when the trace contains a fetch-collaborator invocation. -/
def fetches (es : List Event) : Bool :=
  es.any fun e => match e with
    | Event.fetchCall _ _ => true
    | _ => false

/-- True when the trace contains an import-collaborator invocation. -/
def importsRecords (es : List Event) : Bool :=
  es.any fun e => match e with
    | Event.importCall _ => true
    | _ => false

/-- True when the trace reads the stored cursor. -/
def readsCursor (es : List Event) : Bool :=
  es.any fun e => match e with
    | Event.getSynced => true
    | _ => false

/-- True when the trace writes the stored cursor. -/
def writesCursor (es : List Event) : Bool :=
  es.any fun e => match e with
    | Event.setSynced _ => true
    | _ => false

/-- State of the host timer facility together with the `timeout` local
variable of `onActivate` (line 67).  `live` lists the ids of pending
timers in creation order; `timeoutVar` is the current value of the
`timeout` variable — declared `undefined` and, in the source, never
assigned. -/
structure TimerSys where
  live : List Nat
  nextId : Nat
  timeoutVar : Option Nat
deriving DecidableEq

/-- `setTimeout`: registers a fresh pending timer and returns its
handle. -/
def setTimeoutOp (s : TimerSys) : Nat × TimerSys :=
  (s.nextId, { s with live := s.live ++ [s.nextId], nextId := s.nextId + 1 })

/-- `clearTimeout(h)`: cancels the timer named by `h`; with an
`undefined` handle it is a no-op. -/
def clearTimeoutOp (h : Option Nat) (s : TimerSys) : TimerSys :=
  match h with
  | none => s
  | some id => { s with live := s.live.filter fun x => x ≠ id }

/-- Effect on the timer system of the `finally` block (lines 121-122):
`clearTimeout(timeout); setTimeout(syncHighlights, 1000 * 60 * 30)`.
The handle returned by `setTimeout` is discarded — the source never
assigns `timeout` — so `timeoutVar` keeps its previous value. -/
def rearm (s : TimerSys) : TimerSys :=
  let s1 := clearTimeoutOp s.timeoutVar s
  let s2 := (setTimeoutOp s1).2
  { s2 with timeoutVar := s.timeoutVar }

/-- The timer system at the end of the declarations of `onActivate`:
no pending timer, `timeout` undefined. -/
def initialTimerSys : TimerSys :=
  { live := [], nextId := 0, timeoutVar := none }

/-- What `onActivate` decides at startup: run a cycle at once with the
given options, or schedule one after a delay (the timer callback
receives no options). -/
inductive StartupAction where
  | runNow (opts : Option SyncOptions)
  | scheduleAfter (delayMs : Int) (opts : Option SyncOptions)
deriving DecidableEq

/-- Shallow embedding of the startup policy (lines 146-152): if the
stored cursor is absent, or `new Date(lastSync).getTime()` is below
`now - 1000 * 60 * 30`, call `syncHighlights({})` immediately;
otherwise `setTimeout(syncHighlights, 1000 * 60 * 30 - (now - cursorTime))`. -/
def onActivateSchedule (storedCursor : Option Int) (now : Int) : StartupAction :=
  match storedCursor with
  | none => StartupAction.runNow (some { ignoreLastSync := none, notify := none })
  | some t =>
      if t < now - interval then
        StartupAction.runNow (some { ignoreLastSync := none, notify := none })
      else
        StartupAction.scheduleAfter (interval - (now - t)) none

/-! ### Evaluation lemmas

One lemma per control-flow path of `syncHighlights`, giving the full
cycle result.  The claim theorems below are proved from these. -/

/-- Missing or empty credential (lines 70-76): toast and return, before
the `try` block. -/
theorem sync_eval_noKey (opts : Option SyncOptions) (env : Env)
    (hk : falsyStr env.apiKey = true) :
    syncHighlights opts env =
      { events := [Event.toast noKeyMsg], cursor := env.storedCursor, fault := false } := by
  simp [syncHighlights, hk]

/-- Timer-fired invocation with a usable key: `opts.ignoreLastSync`
throws outside the `try`, the function rejects with an empty trace. -/
theorem sync_eval_fault (env : Env) (hk : falsyStr env.apiKey = false) :
    syncHighlights none env =
      { events := [], cursor := env.storedCursor, fault := true } := by
  simp [syncHighlights, hk]

/-- The events reading the cursor and the resolved `since` value
(lines 77-79). -/
def readEvsOf (o : SyncOptions) : List Event :=
  if truthy o.ignoreLastSync then [] else [Event.getSynced]

/-- The `since` argument the fetch receives. -/
def sinceOf (o : SyncOptions) (env : Env) : Option Int :=
  if truthy o.ignoreLastSync then none else env.storedCursor

/-- Fetch throws: caught, generic toast, re-arm; cursor untouched. -/
theorem sync_eval_throws (o : SyncOptions) (env : Env)
    (hk : falsyStr env.apiKey = false) (hf : env.fetchResult = FetchResult.throwsErr) :
    syncHighlights (some o) env =
      { events := readEvsOf o ++
          [Event.fetchCall (env.apiKey.getD "") (sinceOf o env), Event.toast syncFailedMsg] ++
          rearmEvents,
        cursor := env.storedCursor, fault := false } := by
  simp [syncHighlights, hk, hf, readEvsOf, sinceOf]

/-- Auth failure (lines 105-110): invalid-key toast, re-arm; cursor
untouched. -/
theorem sync_eval_auth (o : SyncOptions) (env : Env)
    (hk : falsyStr env.apiKey = false) (hf : env.fetchResult = FetchResult.failure "auth") :
    syncHighlights (some o) env =
      { events := readEvsOf o ++
          [Event.fetchCall (env.apiKey.getD "") (sinceOf o env), Event.toast invalidKeyMsg] ++
          rearmEvents,
        cursor := env.storedCursor, fault := false } := by
  simp [syncHighlights, hk, hf, readEvsOf, sinceOf]

/-- Non-auth failure (lines 111-115): specific failure toast, re-arm;
cursor untouched. -/
theorem sync_eval_other (o : SyncOptions) (env : Env) (e : String)
    (hk : falsyStr env.apiKey = false) (hf : env.fetchResult = FetchResult.failure e)
    (he : e ≠ "auth") :
    syncHighlights (some o) env =
      { events := readEvsOf o ++
          [Event.fetchCall (env.apiKey.getD "") (sinceOf o env),
           Event.toast (syncFailedWith e)] ++ rearmEvents,
        cursor := env.storedCursor, fault := false } := by
  simp [syncHighlights, hk, hf, he, readEvsOf, sinceOf]

/-- Successful fetch with missing or empty data (lines 96-103):
optional toast, cursor advanced to now, re-arm. -/
theorem sync_eval_empty (o : SyncOptions) (env : Env)
    (hk : falsyStr env.apiKey = false)
    (hf : env.fetchResult = FetchResult.success none ∨
          env.fetchResult = FetchResult.success (some [])) :
    syncHighlights (some o) env =
      { events := readEvsOf o ++
          [Event.fetchCall (env.apiKey.getD "") (sinceOf o env)] ++
          (if truthy o.notify then [Event.toast nothingNewMsg] else []) ++
          [Event.setSynced env.now] ++ rearmEvents,
        cursor := some env.now, fault := false } := by
  rcases hf with hf | hf <;> simp [syncHighlights, hk, hf, readEvsOf, sinceOf]

/-- Successful fetch with non-empty data, import succeeds
(lines 84-103): optional importing toast, import call, optional
finished toast, cursor advanced to now, re-arm. -/
theorem sync_eval_nonempty (o : SyncOptions) (env : Env) (bs : List String)
    (hk : falsyStr env.apiKey = false)
    (hf : env.fetchResult = FetchResult.success (some bs)) (hb : bs ≠ [])
    (hi : env.importThrows = false) :
    syncHighlights (some o) env =
      { events := readEvsOf o ++
          [Event.fetchCall (env.apiKey.getD "") (sinceOf o env)] ++
          (if truthy o.notify then [Event.toast importingMsg] else []) ++
          [Event.importCall bs] ++
          (if truthy o.notify then [Event.toast finishedMsg] else []) ++
          [Event.setSynced env.now] ++ rearmEvents,
        cursor := some env.now, fault := false } := by
  have hlen : 0 < bs.length := List.length_pos.mpr hb
  simp [syncHighlights, hk, hf, hlen, hi, readEvsOf, sinceOf]

/-- Successful fetch with non-empty data but the import collaborator
throws: caught, generic toast, re-arm; cursor untouched. -/
theorem sync_eval_import_throws (o : SyncOptions) (env : Env) (bs : List String)
    (hk : falsyStr env.apiKey = false)
    (hf : env.fetchResult = FetchResult.success (some bs)) (hb : bs ≠ [])
    (hi : env.importThrows = true) :
    syncHighlights (some o) env =
      { events := readEvsOf o ++
          [Event.fetchCall (env.apiKey.getD "") (sinceOf o env)] ++
          (if truthy o.notify then [Event.toast importingMsg] else []) ++
          [Event.importCall bs, Event.toast syncFailedMsg] ++ rearmEvents,
        cursor := env.storedCursor, fault := false } := by
  have hlen : 0 < bs.length := List.length_pos.mpr hb
  simp [syncHighlights, hk, hf, hlen, hi, readEvsOf, sinceOf]

/-! ### Shared path-analysis lemmas -/

/-- Every cycle that passes the credential gate with its options object
present reaches the `finally` block: a 30-minute re-arm event is in its
trace, whatever the fetch outcome and whether or not import throws. -/
theorem sync_schedule_mem (o : SyncOptions) (env : Env)
    (hk : falsyStr env.apiKey = false) :
    Event.scheduleCall interval none ∈ (syncHighlights (some o) env).events := by
  cases hfr : env.fetchResult with
  | success data =>
    cases data with
    | none =>
      rw [sync_eval_empty o env hk (Or.inl hfr)]; simp [rearmEvents]
    | some bs =>
      rcases eq_or_ne bs [] with hb | hb
      · subst hb
        rw [sync_eval_empty o env hk (Or.inr hfr)]; simp [rearmEvents]
      · cases hit : env.importThrows with
        | false => rw [sync_eval_nonempty o env bs hk hfr hb hit]; simp [rearmEvents]
        | true => rw [sync_eval_import_throws o env bs hk hfr hb hit]; simp [rearmEvents]
  | failure e =>
    rcases eq_or_ne e "auth" with he | he
    · subst he
      rw [sync_eval_auth o env hk hfr]; simp [rearmEvents]
    · rw [sync_eval_other o env e hk hfr he]; simp [rearmEvents]
  | throwsErr =>
    rw [sync_eval_throws o env hk hfr]; simp [rearmEvents]

/-- Every cycle that passes the credential gate with its options object
present invokes the fetch collaborator with the resolved `since`. -/
theorem sync_fetch_mem (o : SyncOptions) (env : Env)
    (hk : falsyStr env.apiKey = false) :
    Event.fetchCall (env.apiKey.getD "") (sinceOf o env) ∈
      (syncHighlights (some o) env).events := by
  cases hfr : env.fetchResult with
  | success data =>
    cases data with
    | none =>
      rw [sync_eval_empty o env hk (Or.inl hfr)]; simp
    | some bs =>
      rcases eq_or_ne bs [] with hb | hb
      · subst hb
        rw [sync_eval_empty o env hk (Or.inr hfr)]; simp
      · cases hit : env.importThrows with
        | false => rw [sync_eval_nonempty o env bs hk hfr hb hit]; simp
        | true => rw [sync_eval_import_throws o env bs hk hfr hb hit]; simp
  | failure e =>
    rcases eq_or_ne e "auth" with he | he
    · subst he
      rw [sync_eval_auth o env hk hfr]; simp
    · rw [sync_eval_other o env e hk hfr he]; simp
  | throwsErr =>
    rw [sync_eval_throws o env hk hfr]; simp

/-- After any cycle the cursor is either the stored value unchanged or
the wall-clock time at completion of that cycle. -/
theorem sync_cursor_cases (opts : Option SyncOptions) (env : Env) :
    (syncHighlights opts env).cursor = env.storedCursor ∨
    (syncHighlights opts env).cursor = some env.now := by
  cases hk : falsyStr env.apiKey with
  | true => rw [sync_eval_noKey opts env hk]; left; rfl
  | false =>
    cases opts with
    | none => rw [sync_eval_fault env hk]; left; rfl
    | some o =>
      cases hfr : env.fetchResult with
      | success data =>
        cases data with
        | none =>
          rw [sync_eval_empty o env hk (Or.inl hfr)]; right; rfl
        | some bs =>
          rcases eq_or_ne bs [] with hb | hb
          · subst hb
            rw [sync_eval_empty o env hk (Or.inr hfr)]; right; rfl
          · cases hit : env.importThrows with
            | false => rw [sync_eval_nonempty o env bs hk hfr hb hit]; right; rfl
            | true => rw [sync_eval_import_throws o env bs hk hfr hb hit]; left; rfl
      | failure e =>
        rcases eq_or_ne e "auth" with he | he
        · subst he
          rw [sync_eval_auth o env hk hfr]; left; rfl
        · rw [sync_eval_other o env e hk hfr he]; left; rfl
      | throwsErr =>
        rw [sync_eval_throws o env hk hfr]; left; rfl

/-- A cycle whose fetch outcome is a failure object never writes the
cursor. -/
theorem sync_cursor_failure (opts : Option SyncOptions) (env : Env) (e : String)
    (hf : env.fetchResult = FetchResult.failure e) :
    (syncHighlights opts env).cursor = env.storedCursor := by
  cases hk : falsyStr env.apiKey with
  | true => rw [sync_eval_noKey opts env hk]
  | false =>
    cases opts with
    | none => rw [sync_eval_fault env hk]
    | some o =>
      rcases eq_or_ne e "auth" with he | he
      · subst he
        rw [sync_eval_auth o env hk hf]
      · rw [sync_eval_other o env e hk hf he]

/-! ### Claim C1 -/

/-- Claim C1, counterexample: re-arming is not unconditional.  A
timer-fired invocation (no options) with a usable API key throws at
`opts.ignoreLastSync` outside the `try`, so no next cycle is scheduled
before the cycle returns. -/
theorem c1_counterexample :
    schedules (syncHighlights none
      { apiKey := some "key", storedCursor := some 100,
        fetchResult := FetchResult.success (some ["book1"]),
        importThrows := false, now := 200 }).events = false := by
  decide

/-- Claim C1 (amended): a next cycle is scheduled after the fixed
30-minute interval before the cycle returns for every invocation whose
options object is present and whose stored API key is non-empty —
covering every fetch outcome (success, empty success, auth failure,
other failure) and exceptions thrown by fetch or import inside the
`try` block.  The missing-credential branch and the options-dereference
fault return before the guaranteed-execution block and schedule
nothing. -/
theorem c1_rearm_after_gate (o : SyncOptions) (env : Env)
    (hk : falsyStr env.apiKey = false) :
    Event.scheduleCall interval none ∈ (syncHighlights (some o) env).events :=
  sync_schedule_mem o env hk

/-- Witness for the amended theorem of C1 at a concrete input. -/
theorem c1_rearm_after_gate_witness :
    falsyStr (some "key") = false ∧
    Event.scheduleCall interval none ∈
      (syncHighlights (some { ignoreLastSync := none, notify := none })
        { apiKey := some "key", storedCursor := none,
          fetchResult := FetchResult.success none,
          importThrows := false, now := 7 }).events :=
  ⟨by decide,
   c1_rearm_after_gate { ignoreLastSync := none, notify := none }
     { apiKey := some "key", storedCursor := none,
       fetchResult := FetchResult.success none,
       importThrows := false, now := 7 } (by decide)⟩

/-! ### Claim C2 -/

/-- Claim C2 fails on the code: `timeout` is declared (line 67) but the
handle returned by `setTimeout` (line 122) is never assigned to it, so
`clearTimeout(timeout)` always clears `undefined` and cancels nothing.
After two completed cycles while the timer of the first cycle is still
pending — e.g. the startup auto-cycle followed by a manual sync — two
timers are live at once. -/
theorem c2_two_timers_pending :
    (rearm (rearm initialTimerSys)).live = [0, 1] ∧
    ¬ (rearm (rearm initialTimerSys)).live.length ≤ 1 ∧
    (rearm (rearm initialTimerSys)).timeoutVar = none := by
  decide

/-! ### Claim C3 -/

/-- Claim C3, counterexample: with the API key absent the cycle
returns at line 75, before the `try`/`finally`, so contrary to the
claim no next-cycle timer is scheduled. -/
theorem c3_counterexample :
    schedules (syncHighlights
      (some { ignoreLastSync := none, notify := some true })
      { apiKey := none, storedCursor := some 5,
        fetchResult := FetchResult.success none,
        importThrows := false, now := 9 }).events = false := by
  decide

/-- Claim C3 (amended): for every cycle invoked when the stored API key
is absent or empty, the no-API-key toast is emitted, the fetch
collaborator is never invoked, the sync cursor is neither read nor
written — but no new timer is scheduled either: the cycle returns
before the re-arm block. -/
theorem c3_credential_gate (opts : Option SyncOptions) (env : Env)
    (hk : falsyStr env.apiKey = true) :
    Event.toast noKeyMsg ∈ (syncHighlights opts env).events ∧
    fetches (syncHighlights opts env).events = false ∧
    readsCursor (syncHighlights opts env).events = false ∧
    writesCursor (syncHighlights opts env).events = false ∧
    (syncHighlights opts env).cursor = env.storedCursor ∧
    schedules (syncHighlights opts env).events = false := by
  rw [sync_eval_noKey opts env hk]
  exact ⟨by simp, by simp [fetches], by simp [readsCursor], by simp [writesCursor],
    rfl, by simp [schedules]⟩

/-- Witness for the amended theorem of C3 at a concrete input (empty-string
key). -/
theorem c3_credential_gate_witness :
    falsyStr (some "") = true ∧
    Event.toast noKeyMsg ∈
      (syncHighlights (some { ignoreLastSync := none, notify := some true })
        { apiKey := some "", storedCursor := some 11,
          fetchResult := FetchResult.failure "auth",
          importThrows := false, now := 12 }).events :=
  ⟨by decide,
   (c3_credential_gate (some { ignoreLastSync := none, notify := some true })
     { apiKey := some "", storedCursor := some 11,
       fetchResult := FetchResult.failure "auth",
       importThrows := false, now := 12 } (by decide)).1⟩

/-! ### Claim C4 -/

/-- Claim C4: on every failure outcome (auth or other) the persisted
cursor after the cycle equals its value before; and across successful
cycles the cursor is monotonically non-decreasing — any value the cycle
leaves in the cursor is at least the previously stored one, provided
wall-clock time has not gone backwards past it. -/
theorem c4_cursor_safety :
    (∀ (opts : Option SyncOptions) (env : Env) (e : String),
        env.fetchResult = FetchResult.failure e →
        (syncHighlights opts env).cursor = env.storedCursor) ∧
    (∀ (opts : Option SyncOptions) (env : Env) (t0 t1 : Int),
        env.storedCursor = some t0 → t0 ≤ env.now →
        (syncHighlights opts env).cursor = some t1 → t0 ≤ t1) := by
  constructor
  · exact fun opts env e hf => sync_cursor_failure opts env e hf
  · intro opts env t0 t1 h0 hle h1
    rcases sync_cursor_cases opts env with h | h
    · rw [h, h0] at h1
      cases h1
      exact le_refl t0
    · rw [h] at h1
      cases h1
      exact hle

/-- Witness for C4 at concrete inputs: an auth failure leaves the
cursor at its stored value, and a successful cycle moving the cursor
from 3 to 10 is non-decreasing. -/
theorem c4_cursor_safety_witness :
    (syncHighlights (some { ignoreLastSync := none, notify := none })
      { apiKey := some "key", storedCursor := some 3,
        fetchResult := FetchResult.failure "auth",
        importThrows := false, now := 10 }).cursor = some 3 ∧
    (3 : Int) ≤ 10 :=
  ⟨c4_cursor_safety.1 (some { ignoreLastSync := none, notify := none })
     { apiKey := some "key", storedCursor := some 3,
       fetchResult := FetchResult.failure "auth",
       importThrows := false, now := 10 } "auth" rfl,
   c4_cursor_safety.2 (some { ignoreLastSync := none, notify := none })
     { apiKey := some "key", storedCursor := some 3,
       fetchResult := FetchResult.success (some ["book1"]),
       importThrows := false, now := 10 } 3 10 rfl (by decide) (by decide)⟩

/-- With `ignoreLastSync` truthy the since-resolution takes the
`undefined` arm of the ternary (line 78) and no branch afterwards reads
the stored cursor. -/
theorem sync_reads_false (o : SyncOptions) (env : Env)
    (hk : falsyStr env.apiKey = false) (hi : truthy o.ignoreLastSync = true) :
    readsCursor (syncHighlights (some o) env).events = false := by
  cases hfr : env.fetchResult with
  | success data =>
    cases data with
    | none =>
      rw [sync_eval_empty o env hk (Or.inl hfr)]
      cases hn : truthy o.notify <;> simp [readsCursor, readEvsOf, rearmEvents, hi, hn]
    | some bs =>
      rcases eq_or_ne bs [] with hb | hb
      · subst hb
        rw [sync_eval_empty o env hk (Or.inr hfr)]
        cases hn : truthy o.notify <;> simp [readsCursor, readEvsOf, rearmEvents, hi, hn]
      · cases hit : env.importThrows with
        | false =>
          rw [sync_eval_nonempty o env bs hk hfr hb hit]
          cases hn : truthy o.notify <;> simp [readsCursor, readEvsOf, rearmEvents, hi, hn]
        | true =>
          rw [sync_eval_import_throws o env bs hk hfr hb hit]
          cases hn : truthy o.notify <;> simp [readsCursor, readEvsOf, rearmEvents, hi, hn]
  | failure e =>
    rcases eq_or_ne e "auth" with he | he
    · subst he
      rw [sync_eval_auth o env hk hfr]
      simp [readsCursor, readEvsOf, rearmEvents, hi]
    · rw [sync_eval_other o env e hk hfr he]
      simp [readsCursor, readEvsOf, rearmEvents, hi]
  | throwsErr =>
    rw [sync_eval_throws o env hk hfr]
    simp [readsCursor, readEvsOf, rearmEvents, hi]

/-! ### Claim C5 -/

/-- Claim C5: with `ignoreLastSync` falsy and a stored cursor `T0` the
fetch collaborator is invoked with `since = T0`; with `ignoreLastSync`
truthy or the cursor absent it is invoked with `since = undefined`; and
with `ignoreLastSync` truthy the stored cursor is never read.  (As in
the source, fetch is only reached when the credential gate passes, so a
non-empty API key and a present options object are assumed.) -/
theorem c5_window_correctness :
    (∀ (o : SyncOptions) (env : Env) (t0 : Int),
        falsyStr env.apiKey = false → truthy o.ignoreLastSync = false →
        env.storedCursor = some t0 →
        Event.fetchCall (env.apiKey.getD "") (some t0) ∈
          (syncHighlights (some o) env).events) ∧
    (∀ (o : SyncOptions) (env : Env),
        falsyStr env.apiKey = false →
        (truthy o.ignoreLastSync = true ∨ env.storedCursor = none) →
        Event.fetchCall (env.apiKey.getD "") none ∈
          (syncHighlights (some o) env).events) ∧
    (∀ (o : SyncOptions) (env : Env),
        falsyStr env.apiKey = false → truthy o.ignoreLastSync = true →
        readsCursor (syncHighlights (some o) env).events = false) := by
  refine ⟨?_, ?_, ?_⟩
  · intro o env t0 hk hi h0
    have h := sync_fetch_mem o env hk
    simpa [sinceOf, hi, h0] using h
  · intro o env hk hor
    have h := sync_fetch_mem o env hk
    rcases hor with hi | h0
    · simpa [sinceOf, hi] using h
    · simpa [sinceOf, h0] using h
  · intro o env hk hi
    exact sync_reads_false o env hk hi

/-- Witness for C5 at concrete inputs. -/
theorem c5_window_correctness_witness :
    Event.fetchCall "key" (some 42) ∈
      (syncHighlights (some { ignoreLastSync := none, notify := none })
        { apiKey := some "key", storedCursor := some 42,
          fetchResult := FetchResult.success none,
          importThrows := false, now := 50 }).events ∧
    Event.fetchCall "key" none ∈
      (syncHighlights (some { ignoreLastSync := some true, notify := none })
        { apiKey := some "key", storedCursor := some 42,
          fetchResult := FetchResult.success none,
          importThrows := false, now := 50 }).events ∧
    readsCursor (syncHighlights (some { ignoreLastSync := some true, notify := none })
        { apiKey := some "key", storedCursor := some 42,
          fetchResult := FetchResult.success none,
          importThrows := false, now := 50 }).events = false :=
  ⟨c5_window_correctness.1 { ignoreLastSync := none, notify := none }
     { apiKey := some "key", storedCursor := some 42,
       fetchResult := FetchResult.success none,
       importThrows := false, now := 50 } 42 (by decide) (by decide) rfl,
   c5_window_correctness.2.1 { ignoreLastSync := some true, notify := none }
     { apiKey := some "key", storedCursor := some 42,
       fetchResult := FetchResult.success none,
       importThrows := false, now := 50 } (by decide) (Or.inl (by decide)),
   c5_window_correctness.2.2 { ignoreLastSync := some true, notify := none }
     { apiKey := some "key", storedCursor := some 42,
       fetchResult := FetchResult.success none,
       importThrows := false, now := 50 } (by decide) (by decide)⟩

/-! ### Claim C6 -/

/-- Claim C6: on a successful fetch with an empty or missing record
list, the import collaborator is not invoked, the nothing-to-import
message is toasted exactly when `notify` is truthy, and the cursor is
still advanced — written with the wall-clock completion time of the cycle. -/
theorem c6_empty_success (o : SyncOptions) (env : Env)
    (hk : falsyStr env.apiKey = false)
    (hf : env.fetchResult = FetchResult.success none ∨
          env.fetchResult = FetchResult.success (some [])) :
    importsRecords (syncHighlights (some o) env).events = false ∧
    ((Event.toast nothingNewMsg ∈ (syncHighlights (some o) env).events) ↔
      truthy o.notify = true) ∧
    (syncHighlights (some o) env).cursor = some env.now ∧
    Event.setSynced env.now ∈ (syncHighlights (some o) env).events := by
  rw [sync_eval_empty o env hk hf]
  cases hn : truthy o.notify <;> cases hi : truthy o.ignoreLastSync <;>
    simp [importsRecords, readEvsOf, rearmEvents, hn, hi]

/-- Witness for C6 at a concrete input. -/
theorem c6_empty_success_witness :
    importsRecords (syncHighlights
      (some { ignoreLastSync := none, notify := some true })
      { apiKey := some "key", storedCursor := some 42,
        fetchResult := FetchResult.success (some []),
        importThrows := false, now := 50 }).events = false ∧
    ((Event.toast nothingNewMsg ∈ (syncHighlights
        (some { ignoreLastSync := none, notify := some true })
        { apiKey := some "key", storedCursor := some 42,
          fetchResult := FetchResult.success (some []),
          importThrows := false, now := 50 }).events) ↔
      truthy ({ ignoreLastSync := none, notify := some true } : SyncOptions).notify = true) ∧
    (syncHighlights (some { ignoreLastSync := none, notify := some true })
      { apiKey := some "key", storedCursor := some 42,
        fetchResult := FetchResult.success (some []),
        importThrows := false, now := 50 }).cursor = some 50 ∧
    Event.setSynced 50 ∈ (syncHighlights
      (some { ignoreLastSync := none, notify := some true })
      { apiKey := some "key", storedCursor := some 42,
        fetchResult := FetchResult.success (some []),
        importThrows := false, now := 50 }).events :=
  c6_empty_success { ignoreLastSync := none, notify := some true }
    { apiKey := some "key", storedCursor := some 42,
      fetchResult := FetchResult.success (some []),
      importThrows := false, now := 50 } (by decide) (Or.inr rfl)

/-! ### Claim C7 -/

/-- Claim C7: with `notify` truthy and a successful fetch of a
non-empty record list, the trace is, in order: the cursor read (unless
skipped), the fetch call, the importing toast, the import call with
exactly the fetched records, the finished toast, the cursor write —
followed by the re-arm; and the cursor ends at the completion time. -/
theorem c7_nonempty_success_order (o : SyncOptions) (env : Env) (bs : List String)
    (hk : falsyStr env.apiKey = false)
    (hf : env.fetchResult = FetchResult.success (some bs)) (hb : bs ≠ [])
    (hi : env.importThrows = false) (hn : truthy o.notify = true) :
    (syncHighlights (some o) env).events =
      readEvsOf o ++
        [Event.fetchCall (env.apiKey.getD "") (sinceOf o env),
         Event.toast importingMsg, Event.importCall bs, Event.toast finishedMsg,
         Event.setSynced env.now] ++ rearmEvents ∧
    (syncHighlights (some o) env).cursor = some env.now := by
  rw [sync_eval_nonempty o env bs hk hf hb hi]
  exact ⟨by simp [hn], rfl⟩

/-- Witness for C7 at a concrete input: one fetched book. -/
theorem c7_nonempty_success_order_witness :
    (syncHighlights (some { ignoreLastSync := none, notify := some true })
      { apiKey := some "key", storedCursor := some 42,
        fetchResult := FetchResult.success (some ["book1"]),
        importThrows := false, now := 50 }).events =
      readEvsOf { ignoreLastSync := none, notify := some true } ++
        [Event.fetchCall "key"
           (sinceOf { ignoreLastSync := none, notify := some true }
             { apiKey := some "key", storedCursor := some 42,
               fetchResult := FetchResult.success (some ["book1"]),
               importThrows := false, now := 50 }),
         Event.toast importingMsg, Event.importCall ["book1"],
         Event.toast finishedMsg, Event.setSynced 50] ++ rearmEvents ∧
    (syncHighlights (some { ignoreLastSync := none, notify := some true })
      { apiKey := some "key", storedCursor := some 42,
        fetchResult := FetchResult.success (some ["book1"]),
        importThrows := false, now := 50 }).cursor = some 50 :=
  c7_nonempty_success_order { ignoreLastSync := none, notify := some true }
    { apiKey := some "key", storedCursor := some 42,
      fetchResult := FetchResult.success (some ["book1"]),
      importThrows := false, now := 50 } ["book1"]
    (by decide) rfl (by decide) rfl (by decide)

/-! ### Claim C8 -/

/-- Claim C8: at activation, an absent cursor or one older than the
30-minute interval triggers an immediate cycle with the empty options
object; otherwise the first cycle is scheduled after
`interval - (now - cursorTime)`, so a restart 10 minutes after a fresh
cursor schedules the next cycle after 20 minutes. -/
theorem c8_startup_policy :
    (∀ now : Int, onActivateSchedule none now =
        StartupAction.runNow (some { ignoreLastSync := none, notify := none })) ∧
    (∀ t now : Int, t < now - interval →
        onActivateSchedule (some t) now =
          StartupAction.runNow (some { ignoreLastSync := none, notify := none })) ∧
    (∀ t now : Int, ¬ t < now - interval →
        onActivateSchedule (some t) now =
          StartupAction.scheduleAfter (interval - (now - t)) none) ∧
    (∀ t : Int, onActivateSchedule (some t) (t + 1000 * 60 * 10) =
        StartupAction.scheduleAfter (1000 * 60 * 20) none) := by
  refine ⟨fun now => rfl, ?_, ?_, ?_⟩
  · intro t now h
    simp [onActivateSchedule, h]
  · intro t now h
    simp [onActivateSchedule, h]
  · intro t
    have h : ¬ t < t + 1000 * 60 * 10 - interval := by
      simp [interval]
    simp [onActivateSchedule, h, interval]

/-- Witness for C8 at concrete inputs: absent cursor, a stale cursor, a
recent cursor, and a cursor exactly 10 minutes old. -/
theorem c8_startup_policy_witness :
    onActivateSchedule none 0 =
      StartupAction.runNow (some { ignoreLastSync := none, notify := none }) ∧
    onActivateSchedule (some 0) 2000000 =
      StartupAction.runNow (some { ignoreLastSync := none, notify := none }) ∧
    onActivateSchedule (some 0) 1000000 =
      StartupAction.scheduleAfter (interval - (1000000 - 0)) none ∧
    onActivateSchedule (some 100) (100 + 1000 * 60 * 10) =
      StartupAction.scheduleAfter (1000 * 60 * 20) none :=
  ⟨c8_startup_policy.1 0,
   c8_startup_policy.2.1 0 2000000 (by decide),
   c8_startup_policy.2.2.1 0 1000000 (by decide),
   c8_startup_policy.2.2.2 100⟩

/-! ### Claim C9 -/

/-- Claim C9: the four failure toasts (missing key, invalid key,
specific other-failure, caught exception) are emitted on every affected
cycle whatever the `notify` option, while the three success-path
messages (importing, finished, nothing to import) are toasted exactly
when `notify` is truthy. -/
theorem c9_toast_notify_policy :
    (∀ (opts : Option SyncOptions) (env : Env), falsyStr env.apiKey = true →
        Event.toast noKeyMsg ∈ (syncHighlights opts env).events) ∧
    (∀ (o : SyncOptions) (env : Env), falsyStr env.apiKey = false →
        env.fetchResult = FetchResult.failure "auth" →
        Event.toast invalidKeyMsg ∈ (syncHighlights (some o) env).events) ∧
    (∀ (o : SyncOptions) (env : Env) (e : String), falsyStr env.apiKey = false →
        env.fetchResult = FetchResult.failure e → e ≠ "auth" →
        Event.toast (syncFailedWith e) ∈ (syncHighlights (some o) env).events) ∧
    (∀ (o : SyncOptions) (env : Env), falsyStr env.apiKey = false →
        env.fetchResult = FetchResult.throwsErr →
        Event.toast syncFailedMsg ∈ (syncHighlights (some o) env).events) ∧
    (∀ (o : SyncOptions) (env : Env) (bs : List String), falsyStr env.apiKey = false →
        env.fetchResult = FetchResult.success (some bs) → bs ≠ [] →
        env.importThrows = false →
        ((Event.toast importingMsg ∈ (syncHighlights (some o) env).events) ↔
          truthy o.notify = true) ∧
        ((Event.toast finishedMsg ∈ (syncHighlights (some o) env).events) ↔
          truthy o.notify = true)) ∧
    (∀ (o : SyncOptions) (env : Env), falsyStr env.apiKey = false →
        (env.fetchResult = FetchResult.success none ∨
         env.fetchResult = FetchResult.success (some [])) →
        ((Event.toast nothingNewMsg ∈ (syncHighlights (some o) env).events) ↔
          truthy o.notify = true)) := by
  refine ⟨?_, ?_, ?_, ?_, ?_, ?_⟩
  · intro opts env hk
    rw [sync_eval_noKey opts env hk]
    simp
  · intro o env hk hf
    rw [sync_eval_auth o env hk hf]
    simp
  · intro o env e hk hf he
    rw [sync_eval_other o env e hk hf he]
    simp
  · intro o env hk hf
    rw [sync_eval_throws o env hk hf]
    simp
  · intro o env bs hk hf hb hi
    rw [sync_eval_nonempty o env bs hk hf hb hi]
    cases hn : truthy o.notify <;> cases hig : truthy o.ignoreLastSync <;>
      simp [readEvsOf, rearmEvents, hn, hig, importingMsg, finishedMsg]
  · intro o env hk hf
    rw [sync_eval_empty o env hk hf]
    cases hn : truthy o.notify <;> cases hig : truthy o.ignoreLastSync <;>
      simp [readEvsOf, rearmEvents, hn, hig]

/-- Witness for C9 at concrete inputs: one cycle per failure kind, all
with `notify` unset, and success-path cycles with `notify` set. -/
theorem c9_toast_notify_policy_witness :
    Event.toast noKeyMsg ∈ (syncHighlights none
      { apiKey := none, storedCursor := none,
        fetchResult := FetchResult.success none,
        importThrows := false, now := 1 }).events ∧
    Event.toast invalidKeyMsg ∈
      (syncHighlights (some { ignoreLastSync := none, notify := none })
        { apiKey := some "key", storedCursor := none,
          fetchResult := FetchResult.failure "auth",
          importThrows := false, now := 1 }).events ∧
    Event.toast (syncFailedWith "net") ∈
      (syncHighlights (some { ignoreLastSync := none, notify := none })
        { apiKey := some "key", storedCursor := none,
          fetchResult := FetchResult.failure "net",
          importThrows := false, now := 1 }).events ∧
    Event.toast syncFailedMsg ∈
      (syncHighlights (some { ignoreLastSync := none, notify := none })
        { apiKey := some "key", storedCursor := none,
          fetchResult := FetchResult.throwsErr,
          importThrows := false, now := 1 }).events ∧
    (((Event.toast importingMsg ∈
        (syncHighlights (some { ignoreLastSync := none, notify := some true })
          { apiKey := some "key", storedCursor := none,
            fetchResult := FetchResult.success (some ["book1"]),
            importThrows := false, now := 1 }).events) ↔
      truthy ({ ignoreLastSync := none, notify := some true } : SyncOptions).notify = true) ∧
     ((Event.toast finishedMsg ∈
        (syncHighlights (some { ignoreLastSync := none, notify := some true })
          { apiKey := some "key", storedCursor := none,
            fetchResult := FetchResult.success (some ["book1"]),
            importThrows := false, now := 1 }).events) ↔
      truthy ({ ignoreLastSync := none, notify := some true } : SyncOptions).notify = true)) ∧
    ((Event.toast nothingNewMsg ∈
        (syncHighlights (some { ignoreLastSync := none, notify := some false })
          { apiKey := some "key", storedCursor := none,
            fetchResult := FetchResult.success none,
            importThrows := false, now := 1 }).events) ↔
      truthy ({ ignoreLastSync := none, notify := some false } : SyncOptions).notify = true) :=
  ⟨c9_toast_notify_policy.1 none
     { apiKey := none, storedCursor := none,
       fetchResult := FetchResult.success none,
       importThrows := false, now := 1 } (by decide),
   c9_toast_notify_policy.2.1 { ignoreLastSync := none, notify := none }
     { apiKey := some "key", storedCursor := none,
       fetchResult := FetchResult.failure "auth",
       importThrows := false, now := 1 } (by decide) rfl,
   c9_toast_notify_policy.2.2.1 { ignoreLastSync := none, notify := none }
     { apiKey := some "key", storedCursor := none,
       fetchResult := FetchResult.failure "net",
       importThrows := false, now := 1 } "net" (by decide) rfl (by decide),
   c9_toast_notify_policy.2.2.2.1 { ignoreLastSync := none, notify := none }
     { apiKey := some "key", storedCursor := none,
       fetchResult := FetchResult.throwsErr,
       importThrows := false, now := 1 } (by decide) rfl,
   c9_toast_notify_policy.2.2.2.2.1 { ignoreLastSync := none, notify := some true }
     { apiKey := some "key", storedCursor := none,
       fetchResult := FetchResult.success (some ["book1"]),
       importThrows := false, now := 1 } ["book1"] (by decide) rfl (by decide) rfl,
   c9_toast_notify_policy.2.2.2.2.2 { ignoreLastSync := none, notify := some false }
     { apiKey := some "key", storedCursor := none,
       fetchResult := FetchResult.success none,
       importThrows := false, now := 1 } (by decide) (Or.inl rfl)⟩

/-! ### Claim C10 -/

/-- Claim C10: every scheduling event a cycle can emit is the `finally`
block `setTimeout(syncHighlights, interval)` — a 30-minute timer whose
callback receives no options — and the startup scheduler likewise
schedules with no options; consequently a timer-fired invocation with a
non-empty API key faults at `opts.ignoreLastSync` before any fetch. -/
theorem c10_timer_fired_no_options :
    (∀ (opts : Option SyncOptions) (env : Env) (d : Int) (o2 : Option SyncOptions),
        Event.scheduleCall d o2 ∈ (syncHighlights opts env).events →
        d = interval ∧ o2 = none) ∧
    (∀ (t now d : Int) (o2 : Option SyncOptions),
        onActivateSchedule (some t) now = StartupAction.scheduleAfter d o2 →
        o2 = none) ∧
    (∀ env : Env, falsyStr env.apiKey = false →
        (syncHighlights none env).fault = true ∧
        fetches (syncHighlights none env).events = false) := by
  refine ⟨?_, ?_, ?_⟩
  · intro opts env d o2 hmem
    cases hk : falsyStr env.apiKey with
    | true =>
      rw [sync_eval_noKey opts env hk] at hmem
      simp at hmem
    | false =>
      cases opts with
      | none =>
        rw [sync_eval_fault env hk] at hmem
        simp at hmem
      | some o =>
        cases hfr : env.fetchResult with
        | success data =>
          cases data with
          | none =>
            rw [sync_eval_empty o env hk (Or.inl hfr)] at hmem
            cases hig : truthy o.ignoreLastSync <;> cases hn : truthy o.notify <;>
              (simp [readEvsOf, rearmEvents, hig, hn] at hmem; exact hmem)
          | some bs =>
            rcases eq_or_ne bs [] with hb | hb
            · subst hb
              rw [sync_eval_empty o env hk (Or.inr hfr)] at hmem
              cases hig : truthy o.ignoreLastSync <;> cases hn : truthy o.notify <;>
                (simp [readEvsOf, rearmEvents, hig, hn] at hmem; exact hmem)
            · cases hit : env.importThrows with
              | false =>
                rw [sync_eval_nonempty o env bs hk hfr hb hit] at hmem
                cases hig : truthy o.ignoreLastSync <;> cases hn : truthy o.notify <;>
                  (simp [readEvsOf, rearmEvents, hig, hn] at hmem; exact hmem)
              | true =>
                rw [sync_eval_import_throws o env bs hk hfr hb hit] at hmem
                cases hig : truthy o.ignoreLastSync <;> cases hn : truthy o.notify <;>
                  (simp [readEvsOf, rearmEvents, hig, hn] at hmem; exact hmem)
        | failure e =>
          rcases eq_or_ne e "auth" with he | he
          · subst he
            rw [sync_eval_auth o env hk hfr] at hmem
            cases hig : truthy o.ignoreLastSync <;>
              (simp [readEvsOf, rearmEvents, hig] at hmem; exact hmem)
          · rw [sync_eval_other o env e hk hfr he] at hmem
            cases hig : truthy o.ignoreLastSync <;>
              (simp [readEvsOf, rearmEvents, hig] at hmem; exact hmem)
        | throwsErr =>
          rw [sync_eval_throws o env hk hfr] at hmem
          cases hig : truthy o.ignoreLastSync <;>
            (simp [readEvsOf, rearmEvents, hig] at hmem; exact hmem)
  · intro t now d o2 h
    by_cases hlt : t < now - interval
    · simp [onActivateSchedule, hlt] at h
    · simp [onActivateSchedule, hlt] at h
      exact h.2.symm
  · intro env hk
    rw [sync_eval_fault env hk]
    exact ⟨rfl, rfl⟩

/-- Witness for C10 at concrete inputs. -/
theorem c10_timer_fired_no_options_witness :
    ((interval : Int) = interval ∧ (none : Option SyncOptions) = none) ∧
    ((none : Option SyncOptions) = none) ∧
    ((syncHighlights none
        { apiKey := some "key", storedCursor := some 3,
          fetchResult := FetchResult.success none,
          importThrows := false, now := 9 }).fault = true ∧
     fetches (syncHighlights none
        { apiKey := some "key", storedCursor := some 3,
          fetchResult := FetchResult.success none,
          importThrows := false, now := 9 }).events = false) :=
  ⟨c10_timer_fired_no_options.1 (some { ignoreLastSync := none, notify := none })
     { apiKey := some "key", storedCursor := some 3,
       fetchResult := FetchResult.success none,
       importThrows := false, now := 9 } interval none (by decide),
   c10_timer_fired_no_options.2.1 0 1000000 (interval - (1000000 - 0)) none (by decide),
   c10_timer_fired_no_options.2.2
     { apiKey := some "key", storedCursor := some 3,
       fetchResult := FetchResult.success none,
       importThrows := false, now := 9 } (by decide)⟩

end ReadwiseSync
